import Mathlib

/-!
Verification development for the nsticky daemon (sticky/staged window manager).

The state store holds two sets of window ids (`sticky_windows` and `staged_set`,
both `HashSet<u64>` in the source, embedded as `Finset ℕ`).  The transition
engine (`src/business.rs`, `BusinessLogic`) implements the user-facing
operations; the outcome of each external call (registry oracle query, action
executor move) is passed in as an explicit parameter, and each operation
returns its result value together with the post state.  The daemon dispatch
path (`src/daemon.rs`, `handle_cli_connection` and `run_watcher`) and the
compositor I/O layer (`src/system_integration.rs`) are embedded separately
below.
-/

deriving instance DecidableEq for Except

namespace NSticky

/-- The two membership sets owned by the state store
(`sticky_windows` and `staged_set` in `business.rs` / `daemon.rs`). -/
structure StoreState where
  sticky : Finset ℕ
  staged : Finset ℕ
deriving DecidableEq

/-- Error taxonomy of the engine operations (in the source all errors are
`anyhow` string errors; the strings are mapped to the spec's taxonomy:
"Window not found in Niri" to `notFound`, "Window is not sticky, cannot stage"
to `notSticky`, "Window is not staged" to `notStaged`, and a failed
`move_to_workspace` / `move_to_named_workspace` call to
`remoteActionFailure`). -/
inductive EngineError where
  | notFound
  | notSticky
  | notStaged
  | remoteActionFailure
deriving DecidableEq

/-- `BusinessLogic::add_sticky_window` (business.rs 22-30): registry check,
then `sticky.insert(window_id)`; returns whether the id was newly inserted. -/
def add_sticky_window (registry : Finset ℕ) (s : StoreState) (window_id : ℕ) :
    Except EngineError Bool × StoreState :=
  if window_id ∉ registry then
    (Except.error EngineError.notFound, s)
  else
    (Except.ok (window_id ∉ s.sticky), { s with sticky := insert window_id s.sticky })

/-- `BusinessLogic::remove_sticky_window` (business.rs 32-40): registry check,
then `sticky.remove(&window_id)`; returns whether the id was present. -/
def remove_sticky_window (registry : Finset ℕ) (s : StoreState) (window_id : ℕ) :
    Except EngineError Bool × StoreState :=
  if window_id ∉ registry then
    (Except.error EngineError.notFound, s)
  else
    (Except.ok (window_id ∈ s.sticky), { s with sticky := s.sticky.erase window_id })

/-- `BusinessLogic::toggle_active_window` (business.rs 55-70): the focused
window id (resolved by the registry oracle) is checked against the registry,
then removed from the sticky set if present (returning `false`) or inserted
(returning `true`). -/
def toggle_active_window (registry : Finset ℕ) (active_id : ℕ) (s : StoreState) :
    Except EngineError Bool × StoreState :=
  if active_id ∉ registry then
    (Except.error EngineError.notFound, s)
  else if active_id ∈ s.sticky then
    (Except.ok false, { s with sticky := s.sticky.erase active_id })
  else
    (Except.ok true, { s with sticky := insert active_id s.sticky })

/-- `BusinessLogic::stage_window` (business.rs 73-102): registry check; remove
the id from the sticky set if present; fail `notSticky` if it was absent;
attempt the executor move to the named "stage" workspace (outcome `execOk`);
on failure re-insert the id into the sticky set (rollback) and surface the
error; on success insert the id into the staged set. -/
def stage_window (registry : Finset ℕ) (execOk : Bool) (s : StoreState) (window_id : ℕ) :
    Except EngineError Unit × StoreState :=
  if window_id ∉ registry then
    (Except.error EngineError.notFound, s)
  else
    let was_sticky := window_id ∈ s.sticky
    let s1 := if was_sticky then { s with sticky := s.sticky.erase window_id } else s
    if ¬ was_sticky then
      (Except.error EngineError.notSticky, s1)
    else
      match execOk with
      | false => (Except.error EngineError.remoteActionFailure,
                  { s1 with sticky := insert window_id s1.sticky })
      | true => (Except.ok (), { s1 with staged := insert window_id s1.staged })

/-- `BusinessLogic::unstage_window` (business.rs 180-209): registry check;
remove the id from the staged set if present; fail `notStaged` if it was
absent; attempt the executor move to `workspace_id` (outcome `execOk`); on
failure re-insert into the staged set (rollback); on success insert into the
sticky set. -/
def unstage_window (registry : Finset ℕ) (execOk : Bool) (s : StoreState)
    (window_id : ℕ) (workspace_id : ℕ) : Except EngineError Unit × StoreState :=
  if window_id ∉ registry then
    (Except.error EngineError.notFound, s)
  else
    let was_staged := window_id ∈ s.staged
    let s1 := if was_staged then { s with staged := s.staged.erase window_id } else s
    if ¬ was_staged then
      (Except.error EngineError.notStaged, s1)
    else
      match execOk with
      | false => (Except.error EngineError.remoteActionFailure,
                  { s1 with staged := insert window_id s1.staged })
      | true => (Except.ok (), { s1 with sticky := insert window_id s1.sticky })

/-- `BusinessLogic::is_window_staged` (business.rs 137-140): membership query
on the staged set. -/
def is_window_staged (s : StoreState) (window_id : ℕ) : Bool :=
  window_id ∈ s.staged

/-- `BusinessLogic::stage_all_windows` (business.rs 143-173): snapshot the
sticky set (early return 0 when empty); filter the snapshot to ids present in
the registry; attempt one executor move per surviving id (outcome
`execOk id`); after the loop remove every succeeding id from the sticky set
and insert it into the staged set; return the success count.  The third
component is the set of ids for which a move was attempted. -/
def stage_all_windows (registry : Finset ℕ) (execOk : ℕ → Bool) (s : StoreState) :
    Except EngineError ℕ × StoreState × Finset ℕ :=
  if s.sticky = ∅ then
    (Except.ok 0, s, ∅)
  else
    let valid_sticky_ids := s.sticky.filter (fun id => id ∈ registry)
    let successfully_staged := valid_sticky_ids.filter (fun id => execOk id = true)
    (Except.ok successfully_staged.card,
     { sticky := s.sticky \ successfully_staged,
       staged := s.staged ∪ successfully_staged },
     valid_sticky_ids)

/-- `BusinessLogic::unstage_all_windows` (business.rs 245-277): snapshot the
staged set (early return 0 when empty); filter to registry members; attempt
one move per surviving id to `workspace_id`; batch-commit successes from the
staged set to the sticky set; return the success count. -/
def unstage_all_windows (registry : Finset ℕ) (execOk : ℕ → Bool) (s : StoreState)
    (workspace_id : ℕ) : Except EngineError ℕ × StoreState × Finset ℕ :=
  if s.staged = ∅ then
    (Except.ok 0, s, ∅)
  else
    let valid_ids_to_unstage := s.staged.filter (fun id => id ∈ registry)
    let successfully_unstaged := valid_ids_to_unstage.filter (fun id => execOk id = true)
    (Except.ok successfully_unstaged.card,
     { sticky := s.sticky ∪ successfully_unstaged,
       staged := s.staged \ successfully_unstaged },
     valid_ids_to_unstage)

/-- `BusinessLogic::handle_workspace_activation` (business.rs 279-297): the
registry query result is `unwrap_or_default`-ed (`none` becomes the empty
set); the sticky set is pruned in place (`retain`) to registry members; one
executor move to `ws_id` is issued per id in the pruned snapshot; a move
failure is only logged (`execOk` does not influence the state or the result);
the function always returns `Ok(())`.  The third component is the set of
(window id, target workspace) move commands issued. -/
def handle_workspace_activation (registry_result : Option (Finset ℕ))
    (execOk : ℕ → Bool) (s : StoreState) (ws_id : ℕ) :
    Except EngineError Unit × StoreState × Finset (ℕ × ℕ) :=
  let full_window_list := registry_result.getD ∅
  let sticky1 := s.sticky.filter (fun id => id ∈ full_window_list)
  (Except.ok (), { s with sticky := sticky1 }, sticky1.image (fun id => (id, ws_id)))

/-! ## Reachability of the state store

One completed engine operation, together with the outcomes of the external
calls it makes (registry oracle answer, executor move results), is an `Op`.
A state is reachable when some finite sequence of completed operations
produces it from the two empty sets (`AppState::new` starts both sets
empty). -/

/-- One completed engine operation together with the external-call outcomes
observed during it.  The registry answer and executor outcomes may differ
between operations (the external world changes between calls). -/
inductive Op where
  | add (registry : Finset ℕ) (id : ℕ)
  | remove (registry : Finset ℕ) (id : ℕ)
  | toggleActive (registry : Finset ℕ) (active_id : ℕ)
  | stage (registry : Finset ℕ) (execOk : Bool) (id : ℕ)
  | unstage (registry : Finset ℕ) (execOk : Bool) (id : ℕ) (ws : ℕ)
  | stageAll (registry : Finset ℕ) (execOk : ℕ → Bool)
  | unstageAll (registry : Finset ℕ) (execOk : ℕ → Bool) (ws : ℕ)
  | wsSync (registry_result : Option (Finset ℕ)) (execOk : ℕ → Bool) (ws : ℕ)

/-- Post state of one engine operation (error outcomes leave the state the
operation produced on its error path). -/
def step (s : StoreState) : Op → StoreState
  | Op.add r id => (add_sticky_window r s id).2
  | Op.remove r id => (remove_sticky_window r s id).2
  | Op.toggleActive r a => (toggle_active_window r a s).2
  | Op.stage r e id => (stage_window r e s id).2
  | Op.unstage r e id ws => (unstage_window r e s id ws).2
  | Op.stageAll r e => (stage_all_windows r e s).2.1
  | Op.unstageAll r e ws => (unstage_all_windows r e s ws).2.1
  | Op.wsSync r e ws => (handle_workspace_activation r e s ws).2.1

/-- Run a sequence of completed operations from the initial (empty, empty)
state. -/
def runOps (l : List Op) : StoreState :=
  l.foldl step ⟨∅, ∅⟩

/-- A store state is reachable when some sequence of completed engine
operations produces it from two empty sets. -/
def reachable (s : StoreState) : Prop :=
  ∃ l : List Op, runOps l = s

/-- Invariant I1 of the spec: no window id is a member of both sets at once. -/
def setsDisjoint (s : StoreState) : Prop :=
  s.sticky ∩ s.staged = ∅

instance (s : StoreState) : Decidable (setsDisjoint s) := by
  unfold setsDisjoint; infer_instance

/-- Side condition under which one operation preserves disjointness: `add`
and `toggle_active` must not target a window currently in the staged set
(the source checks only the registry, not the staged set, before inserting
into the sticky set). -/
def safeOp (s : StoreState) : Op → Prop
  | Op.add _ id => id ∉ s.staged
  | Op.toggleActive _ a => a ∉ s.staged
  | _ => True

/-- Reachable through operations that all satisfy `safeOp`. -/
inductive SafeReach : StoreState → Prop where
  | init : SafeReach ⟨∅, ∅⟩
  | next (s : StoreState) (op : Op) : SafeReach s → safeOp s op → SafeReach (step s op)

/-! ## Daemon dispatch path (`src/daemon.rs`, `handle_cli_connection`)

The request server reads one line per connection, splits it on whitespace
and dispatches on the first token.  External-call outcomes are passed in a
`World`: the registry oracle answer (`none` models a failed
`get_full_window_list`, whose `?` aborts the handler without writing a
response, modelled as response `none`), the focused-window and
active-workspace oracle answers, and the executor outcomes.  Iteration order
over a `HashSet` is unspecified in the source; list renderings are modelled
on the ascending order. -/

/-- External-call outcomes visible to one daemon connection. -/
structure World where
  registry : Option (Finset ℕ)
  active_window : Option ℕ
  active_workspace : Option ℕ
  exec_stage : ℕ → Bool
  exec_move : ℕ → ℕ → Bool

/-- Character-level worker for `splitWhitespace`: collect maximal runs of
non-whitespace characters. -/
def splitWhitespaceAux : List Char → List Char → List String
  | [], acc => if acc = [] then [] else [String.mk acc.reverse]
  | c :: cs, acc =>
    if c.isWhitespace then
      if acc = [] then splitWhitespaceAux cs []
      else String.mk acc.reverse :: splitWhitespaceAux cs []
    else splitWhitespaceAux cs (c :: acc)

/-- `line.trim().split_whitespace()` of the source: the maximal
whitespace-free runs of the line, in order. -/
def splitWhitespace (line : String) : List String :=
  splitWhitespaceAux line.data []

/-- Rust `str::parse::<u64>()` on a candidate window id: all-digit non-empty
tokens parse to their decimal value, everything else is rejected.  (The
source's `u64` overflow bound and the optional leading `+` sign accepted by
Rust's parser are not modelled; window ids are opaque handles and every id
appearing in the claims is small.) -/
def parseU64 (t : String) : Option ℕ :=
  if t.data ≠ [] ∧ t.data.all (fun c => c.isDigit) then
    some (t.data.foldl (fun n c => n * 10 + (c.toNat - 48)) 0)
  else none

/-- Rust `format!("{:?}", vec)` rendering of a `Vec<u64>`. -/
def renderVec (l : List ℕ) : String :=
  "[" ++ String.intercalate (", ") (l.map toString) ++ "]\n"

/-- Rust `format!("{:?}", set)` rendering of a `HashSet<u64>`. -/
def renderSet (l : List ℕ) : String :=
  "\x7b" ++ String.intercalate (", ") (l.map toString) ++ "\x7d\n"

/-- Token-level dispatch of `handle_cli_connection` (daemon.rs 79-358).
Result: the single response line written back (`none` when a failed registry
query aborts the handler via `?` before a response is written) and the post
state. -/
def dispatch (w : World) (s : StoreState) : List String → Option String × StoreState
  | [] => (some ("Unknown command\n"), s)
  | cmd :: args =>
    if cmd = "add" then
      match args with
      | [] => (some ("Missing window id\n"), s)
      | id_str :: _ =>
        match parseU64 id_str with
        | none => (some ("Invalid window id\n"), s)
        | some id =>
          match w.registry with
          | none => (none, s)
          | some full_window_list =>
            if id ∉ full_window_list then (some ("Window not found in Niri\n"), s)
            else if id ∈ s.sticky then
              (some ("Already in sticky list\n"), { s with sticky := insert id s.sticky })
            else (some ("Added\n"), { s with sticky := insert id s.sticky })
    else if cmd = "remove" then
      match args with
      | [] => (some ("Missing window id\n"), s)
      | id_str :: _ =>
        match parseU64 id_str with
        | none => (some ("Invalid window id\n"), s)
        | some id =>
          match w.registry with
          | none => (none, s)
          | some full_window_list =>
            if id ∉ full_window_list then (some ("Window not found in Niri\n"), s)
            else if id ∈ s.sticky then
              (some ("Removed\n"), { s with sticky := s.sticky.erase id })
            else (some ("Not in sticky list\n"), { s with sticky := s.sticky.erase id })
    else if cmd = "list" then
      match w.registry with
      | none => (none, s)
      | some full_window_list =>
        (some (renderVec (((s.sticky.sort (fun a b => a ≤ b))).filter
          (fun id => id ∈ full_window_list))), s)
    else if cmd = "toggle_active" then
      match w.active_window with
      | none => (some ("Failed to get active window\n"), s)
      | some active_id =>
        match w.registry with
        | none => (none, s)
        | some full_window_list =>
          if active_id ∉ full_window_list then
            (some ("Active window not found in Niri\n"), s)
          else if active_id ∈ s.sticky then
            (some ("Removed active window from sticky\n"),
             { s with sticky := s.sticky.erase active_id })
          else
            (some ("Added active window to sticky\n"),
             { s with sticky := insert active_id s.sticky })
    else if cmd = "stage" then
      match args with
      | [] => (some ("Missing argument for stage\n"), s)
      | arg :: _ =>
        if arg = "--all" then
          -- daemon.rs 168-198: no registry filter on this path
          if s.sticky = ∅ then (some ("No windows to stage\n"), s)
          else
            let successfully_staged := s.sticky.filter (fun id => w.exec_stage id = true)
            let s2 := if 0 < successfully_staged.card then
                { sticky := s.sticky \ successfully_staged,
                  staged := s.staged ∪ successfully_staged }
              else s
            -- source format string has doubled braces, so the count is not
            -- interpolated: the literal text is written back
            (some ("Staged \x7bstaged_count\x7d windows\n"), s2)
        else if arg = "--list" then
          (some (renderSet (s.staged.sort (fun a b => a ≤ b))), s)
        else if arg = "--active" then
          -- daemon.rs 204-231: sticky-membership check only; the staged set
          -- is never consulted on this path
          match w.active_window with
          | none => (some ("Failed to get active window\n"), s)
          | some id =>
            if id ∉ s.sticky then
              (some ("Active window is not sticky, cannot stage\n"), s)
            else if w.exec_stage id then
              (some ("Staged active window\n"),
               { sticky := s.sticky.erase id, staged := insert id s.staged })
            else (some ("Failed to move window to stage: \x7b_e:?\x7d\n"), s)
        else
          match parseU64 arg with
          | none => (some ("Invalid window id\n"), s)
          | some id =>
            if id ∉ s.sticky then
              (some ("Window is not sticky, cannot stage\n"), s)
            else if w.exec_stage id then
              (some ("Staged window\n"),
               { sticky := s.sticky.erase id, staged := insert id s.staged })
            else (some ("Failed to move window to stage: \x7b_e:?\x7d\n"), s)
    else if cmd = "unstage" then
      -- daemon.rs 263-269: the active workspace is resolved before the
      -- argument is even examined
      match w.active_workspace with
      | none => (some ("Failed to get active workspace ID\n"), s)
      | some current_ws_id =>
        match args with
        | [] => (some ("Missing argument for unstage\n"), s)
        | arg :: _ =>
          if arg = "--all" then
            if s.staged = ∅ then (some ("No windows to unstage\n"), s)
            else
              let successfully_unstaged :=
                s.staged.filter (fun id => w.exec_move id current_ws_id = true)
              let s2 := if successfully_unstaged ≠ ∅ then
                  { staged := s.staged \ successfully_unstaged,
                    sticky := s.sticky ∪ successfully_unstaged }
                else s
              (some ("Unstaged \x7bsuccessfully_unstaged.len()\x7d windows\n"), s2)
          else if arg = "--active" then
            match w.active_window with
            | none => (some ("Failed to get active window\n"), s)
            | some id =>
              if id ∉ s.staged then (some ("Active window is not staged\n"), s)
              else if w.exec_move id current_ws_id then
                (some ("Unstaged active window\n"),
                 { staged := s.staged.erase id, sticky := insert id s.sticky })
              else
                (some ("Failed to move window \x7bid\x7d to workspace \x7bcurrent_ws_id\x7d\n"), s)
          else
            match parseU64 arg with
            | none => (some ("Invalid window id\n"), s)
            | some id =>
              if id ∉ s.staged then (some ("Window is not staged\n"), s)
              else if w.exec_move id current_ws_id then
                (some ("Unstaged window\n"),
                 { staged := s.staged.erase id, sticky := insert id s.sticky })
              else
                (some ("Failed to move window \x7bid\x7d to workspace \x7bcurrent_ws_id\x7d\n"), s)
    else (some ("Unknown command\n"), s)

/-- `handle_cli_connection` (daemon.rs 67-361): split the request line on
whitespace, then dispatch. -/
def handle_cli_connection (w : World) (s : StoreState) (line : String) :
    Option String × StoreState :=
  dispatch w s (splitWhitespace line)

/-! ## Protocol helpers (`src/protocol.rs`) -/

/-- `protocol::Response` (protocol.rs 29-34). -/
inductive Response where
  | success (msg : String)
  | error (msg : String)
  | data (d : String)

/-- `protocol::format_response` (protocol.rs 134-140): an error response is
rendered with the "Error: " prefix.  In this source snapshot nothing in
`daemon.rs` calls this helper. -/
def format_response : Response → String
  | Response.success msg => msg
  | Response.error msg => "Error: " ++ msg
  | Response.data d => d

/-! ## Compositor I/O layer (`src/system_integration.rs`) -/

/-- I/O failures of one `move_to_workspace` / `move_to_named_workspace`
call. -/
inductive MoveError where
  | noSocketPath
  | connectFailed
  | writeFailed
  | readFailed
deriving DecidableEq

/-- Outcomes of the four fallible I/O steps of one move call, plus the
content of the one reply line the compositor sends back. -/
structure MoveEnv where
  socket_path : Option String
  connect_ok : Bool
  write_ok : Bool
  read_ok : Bool
  reply : String

/-- `move_to_workspace` (system_integration.rs 75-100): read NIRI_SOCKET,
connect, write the MoveWindowToWorkspace command with a numeric reference,
read one reply line, print it, and return `Ok(())`.  The reply content is
never inspected. -/
def move_to_workspace (env : MoveEnv) (win_id ws_id : ℕ) : Except MoveError Unit :=
  match env.socket_path with
  | none => Except.error MoveError.noSocketPath
  | some _ =>
    if ¬ env.connect_ok then Except.error MoveError.connectFailed
    else if ¬ env.write_ok then Except.error MoveError.writeFailed
    else if ¬ env.read_ok then Except.error MoveError.readFailed
    else Except.ok ()

/-- `move_to_named_workspace` (system_integration.rs 102-123): identical
shape, with a named workspace reference. -/
def move_to_named_workspace (env : MoveEnv) (win_id : ℕ) (workspace_name : String) :
    Except MoveError Unit :=
  match env.socket_path with
  | none => Except.error MoveError.noSocketPath
  | some _ =>
    if ¬ env.connect_ok then Except.error MoveError.connectFailed
    else if ¬ env.write_ok then Except.error MoveError.writeFailed
    else if ¬ env.read_ok then Except.error MoveError.readFailed
    else Except.ok ()

/-! ## Theorems -/

/-- Elementwise reading of invariant I1. -/
theorem setsDisjoint_iff (s : StoreState) :
    setsDisjoint s ↔ ∀ x, x ∈ s.sticky → x ∉ s.staged := by
  unfold setsDisjoint
  rw [Finset.eq_empty_iff_forall_not_mem]
  constructor
  · intro h x hx hx2
    exact h x (Finset.mem_inter.mpr ⟨hx, hx2⟩)
  · intro h x hx
    rcases Finset.mem_inter.mp hx with ⟨h1, h2⟩
    exact h x h1 h2

/-- One engine operation preserves disjointness, provided `add` and
`toggle_active` do not target a currently staged window. -/
theorem disjoint_step (s : StoreState) (op : Op)
    (hd : setsDisjoint s) (hsafe : safeOp s op) : setsDisjoint (step s op) := by
  rw [setsDisjoint_iff] at hd ⊢
  cases op with
  | add r id =>
    have hsafe' : id ∉ s.staged := hsafe
    simp only [step, add_sticky_window]
    by_cases h : id ∉ r
    · simp only [if_pos h]
      exact hd
    · simp only [if_neg h]
      intro x hx
      rcases Finset.mem_insert.mp hx with rfl | hmem
      · exact hsafe'
      · exact hd x hmem
  | remove r id =>
    simp only [step, remove_sticky_window]
    by_cases h : id ∉ r
    · simp only [if_pos h]
      exact hd
    · simp only [if_neg h]
      intro x hx
      exact hd x (Finset.mem_of_mem_erase hx)
  | toggleActive r a =>
    have hsafe' : a ∉ s.staged := hsafe
    simp only [step, toggle_active_window]
    by_cases h1 : a ∉ r
    · simp only [if_pos h1]
      exact hd
    · simp only [if_neg h1]
      by_cases h2 : a ∈ s.sticky
      · simp only [if_pos h2]
        intro x hx
        exact hd x (Finset.mem_of_mem_erase hx)
      · simp only [if_neg h2]
        intro x hx
        rcases Finset.mem_insert.mp hx with rfl | hmem
        · exact hsafe'
        · exact hd x hmem
  | stage r e id =>
    simp only [step, stage_window]
    by_cases hr : id ∉ r
    · simp only [if_pos hr]
      exact hd
    · simp only [if_neg hr]
      by_cases hs : id ∈ s.sticky
      · simp only [hs, not_true_eq_false, if_true, if_false, ite_true, ite_false]
        cases e
        · intro x hx
          rcases Finset.mem_insert.mp hx with hxid | hmem
          · rw [hxid]
            exact hd id hs
          · exact hd x (Finset.mem_of_mem_erase hmem)
        · intro x hx
          have hxid : x ≠ id := (Finset.mem_erase.mp hx).1
          have hxs : x ∈ s.sticky := Finset.mem_of_mem_erase hx
          intro hmem
          rcases Finset.mem_insert.mp hmem with rfl | h2
          · exact hxid rfl
          · exact hd x hxs h2
      · simp only [hs, not_false_eq_true, if_true, if_false, ite_true, ite_false]
        exact hd
  | unstage r e id ws =>
    simp only [step, unstage_window]
    by_cases hr : id ∉ r
    · simp only [if_pos hr]
      exact hd
    · simp only [if_neg hr]
      by_cases hs : id ∈ s.staged
      · simp only [hs, not_true_eq_false, if_true, if_false, ite_true, ite_false]
        cases e
        · intro x hx hmem
          rcases Finset.mem_insert.mp hmem with rfl | h2
          · exact hd x hx hs
          · exact hd x hx (Finset.mem_of_mem_erase h2)
        · intro x hx
          rcases Finset.mem_insert.mp hx with hxid | hmem
          · rw [hxid]
            exact Finset.not_mem_erase id s.staged
          · intro h2
            exact hd x hmem (Finset.mem_of_mem_erase h2)
      · simp only [hs, not_false_eq_true, if_true, if_false, ite_true, ite_false]
        exact hd
  | stageAll r e =>
    simp only [step, stage_all_windows]
    by_cases h : s.sticky = ∅
    · simp only [if_pos h]
      exact hd
    · simp only [if_neg h]
      intro x hx
      rcases Finset.mem_sdiff.mp hx with ⟨hst, hnot⟩
      intro hmem
      rcases Finset.mem_union.mp hmem with h2 | h2
      · exact hd x hst h2
      · exact hnot h2
  | unstageAll r e ws =>
    simp only [step, unstage_all_windows]
    by_cases h : s.staged = ∅
    · simp only [if_pos h]
      exact hd
    · simp only [if_neg h]
      intro x hx
      rcases Finset.mem_union.mp hx with h2 | h2
      · intro hmem
        exact hd x h2 (Finset.mem_sdiff.mp hmem).1
      · intro hmem
        exact (Finset.mem_sdiff.mp hmem).2 h2
  | wsSync rr e ws =>
    simp only [step, handle_workspace_activation]
    intro x hx
    exact hd x (Finset.mem_filter.mp hx).1

/-- C1 counterexample: the state with window 1 in both sets is reachable
(add 1; stage 1 with a succeeding executor; add 1 again — `add_sticky_window`
checks only the registry, never the staged set), and it violates
StickySet ∩ StagedSet = ∅. -/
theorem C1_counterexample :
    reachable ⟨{1}, {1}⟩ ∧ ¬ setsDisjoint ⟨{1}, {1}⟩ :=
  ⟨⟨[Op.add {1} 1, Op.stage {1} true 1, Op.add {1} 1], by decide⟩, by decide⟩

/-- C1 (amended): for every state reachable from two empty sets by completed
engine operations in which every `add` and every `toggle_active` targets a
window not currently in the staged set, StickySet and StagedSet are disjoint
(the unrestricted claim fails: `add` re-inserts a currently staged window
into the sticky set, see the counterexample). -/
theorem C1_disjoint_invariant (s : StoreState) (h : SafeReach s) : setsDisjoint s := by
  induction h with
  | init => decide
  | next s op hs hsafe ih => exact disjoint_step s op ih hsafe

/-- Witness for C1: a concrete safely-reached state, shown disjoint by the
theorem. -/
theorem C1_witness : SafeReach ⟨{1}, ∅⟩ ∧ setsDisjoint ⟨{1}, ∅⟩ := by
  have h1 : SafeReach (step ⟨∅, ∅⟩ (Op.add {1} 1)) :=
    SafeReach.next ⟨∅, ∅⟩ (Op.add {1} 1) SafeReach.init
      (show (1 : ℕ) ∉ (∅ : Finset ℕ) by decide)
  have h2 : step ⟨∅, ∅⟩ (Op.add {1} 1) = ⟨{1}, ∅⟩ := by decide
  rw [h2] at h1
  exact ⟨h1, C1_disjoint_invariant ⟨{1}, ∅⟩ h1⟩

/-- C2 counterexample: at the reachable state with window 1 in both sets
(see C1), a failing stage of 1 returns `remoteActionFailure` and leaves both
sets unchanged — but StagedSet still contains 1 after the call, contradicting
the claim's "StagedSet does not contain id". -/
theorem C2_counterexample :
    reachable ⟨{1}, {1}⟩ ∧
    stage_window {1} false ⟨{1}, {1}⟩ 1
      = (Except.error EngineError.remoteActionFailure, ⟨{1}, {1}⟩) ∧
    1 ∈ (stage_window {1} false ⟨{1}, {1}⟩ 1).2.staged :=
  ⟨⟨[Op.add {1} 1, Op.stage {1} true 1, Op.add {1} 1], by decide⟩, by decide, by decide⟩

/-- C2 (amended): for every id in the registry and in StickySet, a failing
executor move during `stage(id)` leaves both sets exactly at their pre-call
contents (so StickySet still contains id) and returns `remoteActionFailure`;
StagedSet does not contain id afterwards provided it did not already contain
id before the call (which invariant I1 would guarantee, but which is not a
consequence of reachability, see the C1/C2 counterexamples). -/
theorem C2_stage_rollback (registry : Finset ℕ) (s : StoreState) (window_id : ℕ)
    (hreg : window_id ∈ registry) (hsticky : window_id ∈ s.sticky) :
    stage_window registry false s window_id
      = (Except.error EngineError.remoteActionFailure, s) ∧
    window_id ∈ (stage_window registry false s window_id).2.sticky ∧
    (window_id ∉ s.staged → window_id ∉ (stage_window registry false s window_id).2.staged) := by
  have hmain : stage_window registry false s window_id
      = (Except.error EngineError.remoteActionFailure, s) := by
    simp only [stage_window, hreg, not_true_eq_false, if_false, ite_false,
      if_neg (not_not_intro hreg)]
    simp only [hsticky, if_true, ite_true, not_true_eq_false, if_false, ite_false]
    rw [Finset.insert_erase hsticky]
  refine ⟨hmain, ?_, ?_⟩
  · rw [hmain]
    exact hsticky
  · intro hstaged
    rw [hmain]
    exact hstaged

/-- Witness for C2: a concrete failing stage call, rolled back. -/
theorem C2_witness :
    stage_window {1} false ⟨{1}, {2}⟩ 1
      = (Except.error EngineError.remoteActionFailure, ⟨{1}, {2}⟩) ∧
    1 ∈ (stage_window {1} false ⟨{1}, {2}⟩ 1).2.sticky ∧
    ((1 : ℕ) ∉ ({2} : Finset ℕ) → 1 ∉ (stage_window {1} false ⟨{1}, {2}⟩ 1).2.staged) :=
  C2_stage_rollback {1} ⟨{1}, {2}⟩ 1 (by decide) (by decide)

/-- C3: every validated single-window engine operation (add, remove,
toggle_active, stage, unstage) applied to a window id absent from the
registry oracle's answer fails with `notFound` and leaves the store exactly
as it was — no set mutation happens on this path. -/
theorem C3_validation_precedes_mutation (registry : Finset ℕ) (s : StoreState)
    (window_id active_id workspace_id : ℕ) (execOk : Bool)
    (hid : window_id ∉ registry) (hactive : active_id ∉ registry) :
    add_sticky_window registry s window_id = (Except.error EngineError.notFound, s) ∧
    remove_sticky_window registry s window_id = (Except.error EngineError.notFound, s) ∧
    toggle_active_window registry active_id s = (Except.error EngineError.notFound, s) ∧
    stage_window registry execOk s window_id = (Except.error EngineError.notFound, s) ∧
    unstage_window registry execOk s window_id workspace_id
      = (Except.error EngineError.notFound, s) := by
  refine ⟨?_, ?_, ?_, ?_, ?_⟩ <;>
    simp only [add_sticky_window, remove_sticky_window, toggle_active_window,
      stage_window, unstage_window, if_pos hid, if_pos hactive]

/-- Witness for C3: the spec's own example, `add(999)` (and the other four
operations at id 999) against a registry that does not contain 999. -/
theorem C3_witness :
    add_sticky_window {1, 2} ⟨{3}, {4}⟩ 999 = (Except.error EngineError.notFound, ⟨{3}, {4}⟩) ∧
    remove_sticky_window {1, 2} ⟨{3}, {4}⟩ 999 = (Except.error EngineError.notFound, ⟨{3}, {4}⟩) ∧
    toggle_active_window {1, 2} 999 ⟨{3}, {4}⟩ = (Except.error EngineError.notFound, ⟨{3}, {4}⟩) ∧
    stage_window {1, 2} true ⟨{3}, {4}⟩ 999 = (Except.error EngineError.notFound, ⟨{3}, {4}⟩) ∧
    unstage_window {1, 2} true ⟨{3}, {4}⟩ 999 7 = (Except.error EngineError.notFound, ⟨{3}, {4}⟩) :=
  C3_validation_precedes_mutation {1, 2} ⟨{3}, {4}⟩ 999 999 7 true (by decide) (by decide)

/-- C4: `stage_all` snapshots StickySet, filters to registry members,
attempts one move per surviving id, leaves every failing id in StickySet,
batch-commits every succeeding id from StickySet into StagedSet, and returns
the number of succeeding ids; in particular with StickySet = {1,2,3}, all in
the registry, and the executor failing only for id 2, it returns 2 and
leaves StickySet = {2}, StagedSet = {1,3}. -/
theorem C4_stage_all (registry : Finset ℕ) (execOk : ℕ → Bool) (s : StoreState) :
    (stage_all_windows registry execOk s).1
      = Except.ok ((s.sticky.filter (fun id => id ∈ registry ∧ execOk id = true)).card) ∧
    (∀ id, id ∈ (stage_all_windows registry execOk s).2.1.sticky ↔
      id ∈ s.sticky ∧ ¬ (id ∈ registry ∧ execOk id = true)) ∧
    (∀ id, id ∈ (stage_all_windows registry execOk s).2.1.staged ↔
      id ∈ s.staged ∨ (id ∈ s.sticky ∧ id ∈ registry ∧ execOk id = true)) ∧
    (∀ id, id ∈ (stage_all_windows registry execOk s).2.2 ↔
      id ∈ s.sticky ∧ id ∈ registry) ∧
    stage_all_windows {1, 2, 3} (fun id => decide (id ≠ 2)) ⟨{1, 2, 3}, ∅⟩
      = (Except.ok 2, ⟨{2}, {1, 3}⟩, ({1, 2, 3} : Finset ℕ)) := by
  by_cases h : s.sticky = ∅
  · refine ⟨?_, ?_, ?_, ?_, by decide⟩ <;>
      simp [stage_all_windows, h]
  · refine ⟨?_, ?_, ?_, ?_, by decide⟩ <;>
      simp [stage_all_windows, h, Finset.filter_filter, Finset.mem_sdiff,
        Finset.mem_union, Finset.mem_filter, and_assoc] <;>
      tauto

/-- C5: on a workspace-activation event for workspace `ws_id`, the
synchronizer prunes StickySet in place to its intersection with the registry
(StagedSet untouched), and issues exactly one move command — to `ws_id` —
per id remaining in the pruned set and none for a pruned-out id; executor
failures do not change the state (they are only logged).  In particular with
StickySet = {5, 9} and registry = {5}, an event for workspace 3 leaves
StickySet = {5} and issues exactly the single move (5, 3), whether the move
succeeds or fails. -/
theorem C5_workspace_sync (registry : Finset ℕ) (execOk : ℕ → Bool)
    (s : StoreState) (ws_id : ℕ) :
    (∀ id, id ∈ (handle_workspace_activation (some registry) execOk s ws_id).2.1.sticky ↔
      id ∈ s.sticky ∧ id ∈ registry) ∧
    (handle_workspace_activation (some registry) execOk s ws_id).2.1.staged = s.staged ∧
    (∀ id ws, (id, ws) ∈ (handle_workspace_activation (some registry) execOk s ws_id).2.2 ↔
      id ∈ s.sticky ∧ id ∈ registry ∧ ws = ws_id) ∧
    (handle_workspace_activation (some registry) execOk s ws_id).1 = Except.ok () ∧
    handle_workspace_activation (some {5}) (fun _ => true) ⟨{5, 9}, ∅⟩ 3
      = (Except.ok (), ⟨{5}, ∅⟩, ({(5, 3)} : Finset (ℕ × ℕ))) ∧
    handle_workspace_activation (some {5}) (fun _ => false) ⟨{5, 9}, ∅⟩ 3
      = (Except.ok (), ⟨{5}, ∅⟩, ({(5, 3)} : Finset (ℕ × ℕ))) := by
  refine ⟨?_, rfl, ?_, rfl, by decide, by decide⟩
  · intro id
    simp [handle_workspace_activation, Finset.mem_filter]
  · intro id ws
    simp only [handle_workspace_activation, Option.getD, Finset.mem_image,
      Finset.mem_filter, Prod.mk.injEq]
    constructor
    · rintro ⟨a, ⟨ha1, ha2⟩, haid, haws⟩
      rw [← haid]
      exact ⟨ha1, ha2, haws.symm⟩
    · rintro ⟨h1, h2, h3⟩
      exact ⟨id, ⟨h1, h2⟩, rfl, h3.symm⟩

/-- C6: evaluation of the daemon's `stage --active` handler at the failing
input — the focused window (id 7) is staged (`is_window_staged` is true) and
not sticky.  The claim says the flow reads staged-membership and performs
`unstage_active`; the code instead checks only sticky-membership, replies
"Active window is not sticky, cannot stage" and leaves both sets unchanged;
the staged set is never consulted and no unstage happens.  (The CLI's own
documentation calls this command "Toggle active window in stage", and
`BusinessLogic::is_window_staged` exists for exactly this query, but the
dispatch path never calls it.) -/
theorem C6_stage_active_is_not_a_toggle :
    is_window_staged ⟨∅, {7}⟩ 7 = true ∧
    handle_cli_connection ⟨some {7}, some 7, some 2, fun _ => true, fun _ _ => true⟩
      ⟨∅, {7}⟩ "stage --active"
      = (some ("Active window is not sticky, cannot stage\n"), ⟨∅, {7}⟩) :=
  ⟨by decide, by decide⟩

/-- C7 counterexample: from the reachable state with window 1 in both sets
(see C1), staging 1 and unstaging it again (all moves succeeding, 1 in the
registry) ends with StagedSet = ∅, not the pre-stage StagedSet = {1}: the
round trip does not restore StagedSet there. -/
theorem C7_counterexample :
    reachable ⟨{1}, {1}⟩ ∧
    (stage_window {1} true ⟨{1}, {1}⟩ 1).2 = ⟨∅, {1}⟩ ∧
    (unstage_window {1} true (stage_window {1} true ⟨{1}, {1}⟩ 1).2 1 2).2 = ⟨{1}, ∅⟩ ∧
    (unstage_window {1} true (stage_window {1} true ⟨{1}, {1}⟩ 1).2 1 2).2.staged
      ≠ (⟨{1}, {1}⟩ : StoreState).staged :=
  ⟨⟨[Op.add {1} 1, Op.stage {1} true 1, Op.add {1} 1], by decide⟩,
   by decide, by decide, by decide⟩

/-- C7 (amended): for every id in the registry and in StickySet and not
already in StagedSet (invariant I1 at id — not implied by reachability, see
the counterexample), `stage(id)` followed by `unstage(id, ws)` on an
always-successful executor succeeds and restores the store exactly: id is
back in StickySet and StagedSet equals its pre-stage contents. -/
theorem C7_round_trip (registry : Finset ℕ) (s : StoreState) (window_id ws : ℕ)
    (hreg : window_id ∈ registry) (hsticky : window_id ∈ s.sticky)
    (hstaged : window_id ∉ s.staged) :
    unstage_window registry true (stage_window registry true s window_id).2 window_id ws
      = (Except.ok (), s) := by
  have hstage : (stage_window registry true s window_id).2
      = ⟨s.sticky.erase window_id, insert window_id s.staged⟩ := by
    simp only [stage_window, if_neg (not_not_intro hreg)]
    simp only [hsticky, if_true, ite_true, not_true_eq_false, if_false, ite_false]
  rw [hstage]
  have hmem : window_id ∈ insert window_id s.staged := Finset.mem_insert_self _ _
  simp only [unstage_window, if_neg (not_not_intro hreg)]
  simp only [hmem, if_true, ite_true, not_true_eq_false, if_false, ite_false]
  rw [Finset.erase_insert hstaged, Finset.insert_erase hsticky]

/-- Witness for C7: a concrete successful round trip. -/
theorem C7_witness :
    unstage_window {1} true (stage_window {1} true ⟨{1}, {2}⟩ 1).2 1 5
      = (Except.ok (), ⟨{1}, {2}⟩) :=
  C7_round_trip {1} ⟨{1}, {2}⟩ 1 5 (by decide) (by decide) (by decide)

/-- C8 counterexample: the request server's response to the malformed request
"blah" (unknown command) is the plain line "Unknown command", which does not
begin with "Error: " — contradicting the claim that every malformed input
yields a response line prefixed "Error: ". -/
theorem C8_counterexample :
    handle_cli_connection ⟨some ∅, none, none, fun _ => true, fun _ _ => true⟩
      ⟨∅, ∅⟩ "blah"
      = (some ("Unknown command\n"), ⟨∅, ∅⟩) ∧
    (("Error: ").data.isPrefixOf ("Unknown command\n").data) = false :=
  ⟨by decide, by decide⟩

/-- C8 (amended): every response of the dispatch path is a single line, but
malformed input (unknown command, missing id, non-numeric id, missing
stage argument) yields a fixed plain error line with no "Error: " prefix;
the "Error: " prefix exists only in `protocol::format_response`, which this
source snapshot's request server never calls. -/
theorem C8_malformed_input_plain_errors (w : World) (s : StoreState)
    (cmd t : String) (rest : List String)
    (hcmd : cmd ∉ (["add", "remove", "list", "toggle_active", "stage", "unstage"] : List String))
    (ht : parseU64 t = none) :
    dispatch w s (cmd :: rest) = (some ("Unknown command\n"), s) ∧
    dispatch w s ["add"] = (some ("Missing window id\n"), s) ∧
    dispatch w s ["add", t] = (some ("Invalid window id\n"), s) ∧
    dispatch w s ["stage"] = (some ("Missing argument for stage\n"), s) ∧
    format_response (Response.error t) = "Error: " ++ t ∧
    (("Error: ").data.isPrefixOf ("Unknown command\n").data) = false ∧
    (("Error: ").data.isPrefixOf ("Missing window id\n").data) = false ∧
    (("Error: ").data.isPrefixOf ("Invalid window id\n").data) = false ∧
    (("Error: ").data.isPrefixOf ("Missing argument for stage\n").data) = false := by
  simp only [List.mem_cons, List.mem_singleton, not_or, List.not_mem_nil,
    not_false_eq_true, and_true] at hcmd
  obtain ⟨h1, h2, h3, h4, h5, h6⟩ := hcmd
  refine ⟨?_, ?_, ?_, ?_, rfl, by decide, by decide, by decide, by decide⟩
  · simp only [dispatch, if_neg h1, if_neg h2, if_neg h3, if_neg h4, if_neg h5, if_neg h6]
  · simp [dispatch]
  · simp [dispatch, ht]
  · simp [dispatch]

/-- Witness for C8 (amended): the concrete malformed requests "blah",
"add", "add abc", "stage". -/
theorem C8_witness :
    dispatch ⟨some ∅, none, none, fun _ => true, fun _ _ => true⟩ ⟨∅, ∅⟩
      (("blah") :: []) = (some ("Unknown command\n"), ⟨∅, ∅⟩) ∧
    dispatch ⟨some ∅, none, none, fun _ => true, fun _ _ => true⟩ ⟨∅, ∅⟩
      ["add"] = (some ("Missing window id\n"), ⟨∅, ∅⟩) ∧
    dispatch ⟨some ∅, none, none, fun _ => true, fun _ _ => true⟩ ⟨∅, ∅⟩
      ["add", "abc"] = (some ("Invalid window id\n"), ⟨∅, ∅⟩) ∧
    dispatch ⟨some ∅, none, none, fun _ => true, fun _ _ => true⟩ ⟨∅, ∅⟩
      ["stage"] = (some ("Missing argument for stage\n"), ⟨∅, ∅⟩) ∧
    format_response (Response.error ("abc")) = "Error: " ++ "abc" ∧
    (("Error: ").data.isPrefixOf ("Unknown command\n").data) = false ∧
    (("Error: ").data.isPrefixOf ("Missing window id\n").data) = false ∧
    (("Error: ").data.isPrefixOf ("Invalid window id\n").data) = false ∧
    (("Error: ").data.isPrefixOf ("Missing argument for stage\n").data) = false :=
  C8_malformed_input_plain_errors ⟨some ∅, none, none, fun _ => true, fun _ _ => true⟩
    ⟨∅, ∅⟩ "blah" "abc" [] (by decide) (by decide)

/-- C9: when the registry oracle query fails during a workspace-activation
event, `unwrap_or_default` substitutes the empty set, so the prune empties
StickySet entirely, no move command is issued, and the handler still returns
`Ok(())` — the registry error is surfaced to no one. -/
theorem C9_registry_failure_empties_sticky (execOk : ℕ → Bool) (s : StoreState) (ws_id : ℕ) :
    handle_workspace_activation none execOk s ws_id
      = (Except.ok (), ⟨∅, s.staged⟩, (∅ : Finset (ℕ × ℕ))) := by
  have h : s.sticky.filter (fun id => id ∈ (∅ : Finset ℕ)) = ∅ := by
    simp
  simp [handle_workspace_activation, h]

/-- C10: `move_to_workspace` and `move_to_named_workspace` return success
whenever reading NIRI_SOCKET, connecting, writing the command and reading
one reply line all succeed, for every possible content of the reply line —
a compositor-level error reported in the reply is never surfaced as an
executor failure (so it can never trigger the stage/unstage rollback path,
which only runs when the executor call returns an error). -/
theorem C10_move_ignores_reply (env : MoveEnv) (win_id ws_id : ℕ) (workspace_name : String)
    (hsock : env.socket_path.isSome = true) (hc : env.connect_ok = true)
    (hw : env.write_ok = true) (hr : env.read_ok = true) :
    move_to_workspace env win_id ws_id = Except.ok () ∧
    move_to_named_workspace env win_id workspace_name = Except.ok () := by
  obtain ⟨p, hp⟩ := Option.isSome_iff_exists.mp hsock
  constructor <;>
    simp [move_to_workspace, move_to_named_workspace, hp, hc, hw, hr]

/-- Witness for C10: all I/O steps succeed and the compositor's reply is an
explicit error report; both moves still return success. -/
theorem C10_witness :
    move_to_workspace
      ⟨some ("/run/user/1000/niri.sock"), true, true, true,
        "\x7b\"Err\":\"window not found\"\x7d"⟩ 12 3 = Except.ok () ∧
    move_to_named_workspace
      ⟨some ("/run/user/1000/niri.sock"), true, true, true,
        "\x7b\"Err\":\"window not found\"\x7d"⟩ 12 "stage" = Except.ok () :=
  C10_move_ignores_reply
    ⟨some ("/run/user/1000/niri.sock"), true, true, true,
      "\x7b\"Err\":\"window not found\"\x7d"⟩ 12 3 "stage" rfl rfl rfl rfl

end NSticky
